import Mathlib

/-!
Shallow embedding of `kink-playing/kink.py` (class `KinkPlaying`), covering:

* the polling reconciliation loop `_run_check` (lines 141-183),
* the song-info presentation routine `show_song_info` (lines 189-239),
* the network-facing operations `_json_request`, `get_stations`,
  `switch_station`, `get_playing`, `_is_connected` (lines 252-316).

Machine-level conventions: Python dictionaries returned by `json.loads` are
modelled by the inductive `JVal`; an HTTP interaction performed by
`requests.get` is modelled by `FetchResult`, which is either a raised
transport exception (`requests.get` raises on timeout, DNS failure or
connection refusal) or a response carrying a status code and the outcome
that `json.loads` would produce on its text.  Python exceptions escaping a
function are modelled with `Except PyExn`.
-/

/-- Result dictionary of `KinkPlaying.get_playing` (line 309):
`{"artist": .., "title": .., "album_art": .., "program": ..}`. -/
structure Playing where
  artist : String
  title : String
  album_art : String
  program : String
deriving Repr, DecidableEq

/-- One tab-delimited row appended to the csv history log
(lines 173-175): `station, artist, title, program, album_art`. -/
structure HistRec where
  station : String
  artist : String
  title : String
  program : String
  album_art : String
deriving Repr, DecidableEq

/-- Input of one iteration of the polling loop: the value `_is_connected`
returns for this tick (modelled over HTTP responses; the exception path of
`requests.get` is modelled separately by `is_connected` below), the value
of `self.station` during the tick, and the dictionary `get_playing`
returns (`none` models the falsy empty dictionary). -/
structure Tick where
  conn : Bool
  station : String
  playing : Option Playing
deriving Repr, DecidableEq

/-- Mutable state of `_run_check`: the local variables `prev_title`
(line 146) and `was_connected` (line 147), plus the csv history log
contents (modelled structurally, one `HistRec` per appended line). -/
structure LoopState where
  prevTitle : String
  wasConnected : Bool
  history : List HistRec
deriving Repr, DecidableEq

/-- Observable side effects of one loop iteration, in program order. -/
inductive Event where
  /-- `self.indicator.set_menu(self._build_menu())` -/
  | buildMenu
  /-- `self.indicator.set_icon_full(self.grey_icon, '')` (line 155) -/
  | setIconGrey
  /-- `self.indicator.set_icon_full(APP_ID, '')` (line 165) -/
  | setIconNormal
  /-- the `show_notification` call of lines 157-158 ("Unable to connect") -/
  | notifyLost (station : String)
  /-- one csv line written by lines 173-175 -/
  | appendHistory (r : HistRec)
  /-- the `show_notification` call of lines 237-239 inside
  `show_song_info`, emitted only when `self.notification_timeout > 0` -/
  | songNotify (station artist title program : String)
deriving Repr, DecidableEq

/-- Predicate selecting the "Unable to connect" notification events. -/
def Event.isLost : Event → Bool
  | .notifyLost _ => true
  | _ => false

/-- Predicate selecting the switches to the grey icon. -/
def Event.isGreyIcon : Event → Bool
  | .setIconGrey => true
  | _ => false

/-- Predicate selecting the song-info notification events. -/
def Event.isSong : Event → Bool
  | .songNotify _ _ _ _ => true
  | _ => false

/-- Predicate selecting every desktop notification (connection-lost or
song-info; `show_notification` is the only notification emitter). -/
def Event.isNotif : Event → Bool
  | .notifyLost _ => true
  | .songNotify _ _ _ _ => true
  | _ => false

/-- One iteration of the `while` body of `_run_check` (lines 149-183),
parameterised by `self.notification_timeout` (`tmo`).  The branch
structure follows the source line by line; `show_song_info` is inlined as
its notification effect (its album-art handling is modelled separately by
`artAction` below, and right after an append its `csv_data` is never
empty, so its notification fires exactly when `tmo > 0`). -/
def step (tmo : Int) (s : LoopState) (t : Tick) : LoopState × List Event :=
  if !t.conn then
    -- `if not self._is_connected():` (line 151)
    if s.wasConnected then
      ({ s with wasConnected := false },
        [.buildMenu, .setIconGrey, .notifyLost t.station])
    else (s, [])
  else
    -- lines 160-166: `was_connected := true` in both cases (when it was
    -- already true the record update is the identity)
    let s1 : LoopState := { s with wasConnected := true }
    let ev1 : List Event :=
      if s.wasConnected then [] else [.buildMenu, .setIconNormal]
    match t.playing with
    | none => (s1, ev1)
    | some p =>
      -- `if playing['title'] and playing['title'] != prev_title:` (line 171)
      if p.title ≠ "" ∧ p.title ≠ s.prevTitle then
        let r : HistRec :=
          { station := t.station, artist := p.artist, title := p.title,
            program := p.program, album_art := p.album_art }
        ({ s1 with history := s1.history ++ [r], prevTitle := p.title },
          ev1 ++ [.appendHistory r] ++
            (if tmo > 0 then
              [.songNotify t.station p.artist p.title p.program] else []))
      else (s1, ev1)

/-- The record the iteration appends to the csv log, if any (derived view
of `step`; `step_history` below proves the correspondence). -/
def stepRec (s : LoopState) (t : Tick) : Option HistRec :=
  if t.conn then
    match t.playing with
    | none => none
    | some p =>
      if p.title ≠ "" ∧ p.title ≠ s.prevTitle then
        some { station := t.station, artist := p.artist, title := p.title,
               program := p.program, album_art := p.album_art }
      else none
  else none

/-- The polling loop run over a finite list of tick inputs, returning the
final state and the concatenated event trace. -/
def runLoop (tmo : Int) : LoopState → List Tick → LoopState × List Event
  | s, [] => (s, [])
  | s, t :: ts =>
    let st1 := step tmo s t
    let rest := runLoop tmo st1.1 ts
    (rest.1, st1.2 ++ rest.2)

/-- Initial state of `_run_check`: `prev_title = ''`, `was_connected =
True` (lines 146-147), csv log truncated (line 144). -/
def initState : LoopState := { prevTitle := "", wasConnected := true, history := [] }

/-- The whole `_run_check` execution over a finite observation window. -/
def runCheck (tmo : Int) (ticks : List Tick) : LoopState × List Event :=
  runLoop tmo initState ticks

/-- Number of positions that start a maximal run of consecutive `false`
in a Boolean sequence, threading the previous sample (`prev`): position
`i` starts a maximal `false` run exactly when sample `i` is `false` and
the sample before it (or the seed, at `i = 0`) is `true`. -/
def falseRunStarts (prev : Bool) : List Bool → Nat
  | [] => 0
  | c :: rest => (if prev && !c then 1 else 0) + falseRunStarts c rest

/-- Number of maximal runs of consecutive `false` samples in a sequence
(seed `true`, so a leading `false` opens a run). -/
def maximalFalseRunCount (l : List Bool) : Nat := falseRunStarts true l

-- ===== helper lemmas about `step` and `runLoop` =====

theorem step_wasConnected (tmo : Int) (s : LoopState) (t : Tick) :
    (step tmo s t).1.wasConnected = t.conn := by
  cases hc : t.conn <;> cases hw : s.wasConnected <;>
    cases hp : t.playing <;> simp [step, hc, hw, hp] <;> split <;> simp

theorem step_countLost (tmo : Int) (s : LoopState) (t : Tick) :
    ((step tmo s t).2.filter Event.isLost).length =
      (if s.wasConnected && !t.conn then 1 else 0) := by
  cases hc : t.conn <;> cases hw : s.wasConnected <;>
    cases hp : t.playing <;>
      simp [step, hc, hw, hp, Event.isLost] <;> split <;>
        simp [Event.isLost]

theorem step_countGrey (tmo : Int) (s : LoopState) (t : Tick) :
    ((step tmo s t).2.filter Event.isGreyIcon).length =
      (if s.wasConnected && !t.conn then 1 else 0) := by
  cases hc : t.conn <;> cases hw : s.wasConnected <;>
    cases hp : t.playing <;>
      simp [step, hc, hw, hp, Event.isGreyIcon] <;> split <;>
        simp [Event.isGreyIcon]

theorem runLoop_countLost (tmo : Int) (ticks : List Tick) :
    ∀ s : LoopState,
      ((runLoop tmo s ticks).2.filter Event.isLost).length =
        falseRunStarts s.wasConnected (ticks.map Tick.conn) := by
  induction ticks with
  | nil => intro s; simp [runLoop, falseRunStarts]
  | cons t ts ih =>
    intro s
    have hw := step_wasConnected tmo s t
    simp [runLoop, List.filter_append, falseRunStarts, step_countLost,
      ih (step tmo s t).1, hw]

theorem runLoop_countGrey (tmo : Int) (ticks : List Tick) :
    ∀ s : LoopState,
      ((runLoop tmo s ticks).2.filter Event.isGreyIcon).length =
        falseRunStarts s.wasConnected (ticks.map Tick.conn) := by
  induction ticks with
  | nil => intro s; simp [runLoop, falseRunStarts]
  | cons t ts ih =>
    intro s
    have hw := step_wasConnected tmo s t
    simp [runLoop, List.filter_append, falseRunStarts, step_countGrey,
      ih (step tmo s t).1, hw]

/-- C1.  For every observation window and configured notification
timeout, the "Unable to connect" notification and the switch to the grey
icon are each emitted exactly once per maximal run of consecutive
unreachable samples.  Because `was_connected` is seeded `true`, the count
seeds with `prev = true`, so a run starting at the very first sample is
counted (the transition fires on the first tick), and within a run no
further lost-connection notification is emitted. -/
theorem c1_lost_once_per_maximal_unreachable_run (tmo : Int) (ticks : List Tick) :
    ((runCheck tmo ticks).2.filter Event.isLost).length =
      maximalFalseRunCount (ticks.map Tick.conn)
    ∧ ((runCheck tmo ticks).2.filter Event.isGreyIcon).length =
      maximalFalseRunCount (ticks.map Tick.conn) := by
  refine ⟨?_, ?_⟩
  · simpa [runCheck, maximalFalseRunCount, initState] using
      runLoop_countLost tmo ticks initState
  · simpa [runCheck, maximalFalseRunCount, initState] using
      runLoop_countGrey tmo ticks initState

-- ===== C2: history appends =====

/-- Title of the most recently appended history record, or the default
`d` when the log is empty. -/
def lastTitleOr (d : String) (h : List HistRec) : String :=
  match h.getLast? with
  | some r => r.title
  | none => d

theorem step_history (tmo : Int) (s : LoopState) (t : Tick) :
    (step tmo s t).1.history = s.history ++ (stepRec s t).toList := by
  cases hc : t.conn <;> cases hw : s.wasConnected <;>
    cases hp : t.playing <;> simp [step, stepRec, hc, hw, hp] <;> split <;> simp

theorem step_prevTitle (tmo : Int) (s : LoopState) (t : Tick) :
    (step tmo s t).1.prevTitle =
      ((stepRec s t).map HistRec.title).getD s.prevTitle := by
  cases hc : t.conn <;> cases hw : s.wasConnected <;>
    cases hp : t.playing <;> simp [step, stepRec, hc, hw, hp] <;> split <;> simp

theorem stepRec_ne_none_iff (s : LoopState) (t : Tick) :
    stepRec s t ≠ none ↔
      t.conn = true ∧
        ∃ q, t.playing = some q ∧ q.title ≠ "" ∧ q.title ≠ s.prevTitle := by
  cases hc : t.conn <;> cases hp : t.playing <;>
    simp [stepRec, hc, hp]

theorem stepRec_some (s : LoopState) (t : Tick) (r : HistRec)
    (h : stepRec s t = some r) :
    ∃ p, t.playing = some p ∧
      r = { station := t.station, artist := p.artist, title := p.title,
            program := p.program, album_art := p.album_art } := by
  cases hc : t.conn <;> cases hp : t.playing <;> simp [stepRec, hc, hp] at h
  case true.some p =>
    exact ⟨p, rfl, h.2.symm⟩

theorem step_inv_lastTitle (tmo : Int) (s : LoopState) (t : Tick)
    (h : s.prevTitle = lastTitleOr "" s.history) :
    (step tmo s t).1.prevTitle = lastTitleOr "" (step tmo s t).1.history := by
  have hh := step_history tmo s t
  have hp := step_prevTitle tmo s t
  cases hr : stepRec s t with
  | none => simp [hr] at hh hp; rw [hp, hh, h]
  | some r =>
    simp [hr] at hh hp
    rw [hp, hh, lastTitleOr, List.getLast?_concat]

theorem runLoop_inv_lastTitle (tmo : Int) (ticks : List Tick) :
    ∀ s : LoopState, s.prevTitle = lastTitleOr "" s.history →
      (runLoop tmo s ticks).1.prevTitle =
        lastTitleOr "" (runLoop tmo s ticks).1.history := by
  induction ticks with
  | nil => intro s h; simpa [runLoop] using h
  | cons t ts ih =>
    intro s h
    simpa [runLoop] using ih (step tmo s t).1 (step_inv_lastTitle tmo s t h)

theorem runLoop_replicate_no_append (tmo : Int) (st : String) (p : Playing)
    (n : Nat) :
    ∀ s : LoopState, p.title = s.prevTitle ∨ p.title = "" →
      (runLoop tmo s
          (List.replicate n { conn := true, station := st, playing := some p })).1.history
        = s.history := by
  induction n with
  | zero => intro s _; simp [runLoop]
  | succ n ih =>
    intro s h
    have hr : stepRec s { conn := true, station := st, playing := some p } = none := by
      simp [stepRec]
      intro hne
      rcases h with h | h
      · exact h
      · exact absurd h hne
    have hh := step_history tmo s { conn := true, station := st, playing := some p }
    have hp := step_prevTitle tmo s { conn := true, station := st, playing := some p }
    simp [hr] at hh hp
    simp only [List.replicate_succ, runLoop]
    rw [ih _ (by rw [hp]; exact h), hh]

theorem runLoop_replicate_le (tmo : Int) (st : String) (p : Playing) (n : Nat) :
    ∀ s : LoopState,
      (runLoop tmo s
          (List.replicate n { conn := true, station := st, playing := some p })).1.history.length
        ≤ s.history.length + 1 := by
  induction n with
  | zero => intro s; simp [runLoop]
  | succ n ih =>
    intro s
    have hh := step_history tmo s { conn := true, station := st, playing := some p }
    have hp := step_prevTitle tmo s { conn := true, station := st, playing := some p }
    cases hr : stepRec s { conn := true, station := st, playing := some p } with
    | none =>
      simp [hr] at hh hp
      simp only [List.replicate_succ, runLoop]
      calc (runLoop tmo (step tmo s _).1 (List.replicate n _)).1.history.length
          ≤ (step tmo s _).1.history.length + 1 := ih _
        _ = s.history.length + 1 := by rw [hh]
    | some r =>
      obtain ⟨q, hq, hrq⟩ := stepRec_some _ _ _ hr
      have hqp : p = q := Option.some.inj hq
      subst hqp
      simp [hr] at hh hp
      simp only [List.replicate_succ, runLoop]
      rw [runLoop_replicate_no_append tmo st p n _
        (Or.inl (by rw [hp, hrq])), hh]
      simp

/-- C2.  A history record is appended in a tick iff the fetch succeeded
(`playing` truthy), the fetched title is non-empty, and it differs from
`prev_title`; each append stores the appended record at the end of the
log and updates `prev_title` to the new title; along any run from the
initial state `prev_title` always equals the title of the most recently
appended record (so "differs from `prev_title`" is "differs from the
previously appended title of the run"); and any number of consecutive
identical connected samples grows the log by at most one record. -/
theorem c2_history_append_characterization (tmo : Int) (ticks : List Tick)
    (s : LoopState) (t : Tick) (st : String) (p : Playing) (n : Nat) :
    (step tmo s t).1.history = s.history ++ (stepRec s t).toList
    ∧ (stepRec s t ≠ none ↔
        t.conn = true ∧
          ∃ q, t.playing = some q ∧ q.title ≠ "" ∧ q.title ≠ s.prevTitle)
    ∧ (step tmo s t).1.prevTitle =
        ((stepRec s t).map HistRec.title).getD s.prevTitle
    ∧ (runCheck tmo ticks).1.prevTitle =
        lastTitleOr "" (runCheck tmo ticks).1.history
    ∧ (runLoop tmo s
          (List.replicate n { conn := true, station := st, playing := some p })).1.history.length
        ≤ s.history.length + 1 :=
  ⟨step_history tmo s t, stepRec_ne_none_iff s t, step_prevTitle tmo s t,
    runLoop_inv_lastTitle tmo ticks initState rfl,
    runLoop_replicate_le tmo st p n s⟩

-- ===== C5, C7, C10: notifications, recovery, global prev_title =====

theorem step_state_tmo (tmo tmo2 : Int) (s : LoopState) (t : Tick) :
    (step tmo s t).1 = (step tmo2 s t).1 := by
  cases hc : t.conn <;> cases hw : s.wasConnected <;>
    cases hp : t.playing <;> simp [step, hc, hw, hp] <;> split <;> simp

theorem runLoop_state_tmo (tmo tmo2 : Int) (ticks : List Tick) :
    ∀ s : LoopState, (runLoop tmo s ticks).1 = (runLoop tmo2 s ticks).1 := by
  induction ticks with
  | nil => intro s; simp [runLoop]
  | cons t ts ih =>
    intro s
    simp only [runLoop]
    rw [step_state_tmo tmo tmo2 s t]
    exact ih (step tmo2 s t).1

theorem step_filter_song_nonpos (tmo : Int) (s : LoopState) (t : Tick)
    (h : tmo ≤ 0) :
    (step tmo s t).2.filter Event.isSong = [] := by
  have hngt : ¬tmo > 0 := not_lt.mpr h
  cases hc : t.conn <;> cases hw : s.wasConnected <;>
    cases hp : t.playing <;>
      simp [step, hc, hw, hp, hngt, Event.isSong] <;> split <;>
        simp [hngt, Event.isSong]

theorem runLoop_filter_song_nonpos (tmo : Int) (ticks : List Tick)
    (h : tmo ≤ 0) :
    ∀ s : LoopState, (runLoop tmo s ticks).2.filter Event.isSong = [] := by
  induction ticks with
  | nil => intro s; simp [runLoop]
  | cons t ts ih =>
    intro s
    simp [runLoop, List.filter_append, step_filter_song_nonpos tmo s t h,
      ih (step tmo s t).1]

/-- C5 counterexample.  With the configured notification timeout equal to
`0`, an unreachable first sample still emits a desktop notification: the
"Unable to connect" call of lines 157-158 is not guarded by
`notification_timeout > 0`, so "no notification at all is emitted" fails. -/
theorem c5_counterexample :
    (0 : Int) ≤ 0 ∧
      ((runCheck 0 [{ conn := false, station := "kink", playing := none }]).2.filter
          Event.isNotif).length = 1 :=
  ⟨le_refl 0, rfl⟩

/-- C5 (amended).  With a zero or negative notification timeout no
song-info notification is emitted, and the history log is exactly the one
produced under any other timeout setting (appends are unaffected); the
connection-lost notification, however, is not suppressed
(`c5_counterexample`). -/
theorem c5_amended_song_notifications_suppressed (tmo tmo2 : Int)
    (ticks : List Tick) (h : tmo ≤ 0) :
    ((runCheck tmo ticks).2.filter Event.isSong).length = 0
    ∧ (runCheck tmo ticks).1.history = (runCheck tmo2 ticks).1.history := by
  constructor
  · simp [runCheck, runLoop_filter_song_nonpos tmo ticks h initState]
  · simp [runCheck, runLoop_state_tmo tmo tmo2 ticks initState]

/-- Sample fetched song used by concrete witnesses. -/
def sampleP : Playing :=
  { artist := "A", title := "T", album_art := "U", program := "P" }

/-- Sample connected tick on station `kink`. -/
def sampleTick : Tick :=
  { conn := true, station := "kink", playing := some sampleP }

/-- Sample connected tick on station `kink-dna` fetching the same song. -/
def sampleTickDna : Tick :=
  { conn := true, station := "kink-dna", playing := some sampleP }

/-- The history record the loop appends for `sampleTick`. -/
def sampleRec : HistRec :=
  { station := "kink", artist := "A", title := "T", program := "P",
    album_art := "U" }

theorem c5_witness :
    ((runCheck 0 [sampleTick]).2.filter Event.isSong).length = 0
    ∧ (runCheck 0 [sampleTick]).1.history = (runCheck 10 [sampleTick]).1.history :=
  c5_amended_song_notifications_suppressed 0 10 [sampleTick] (by decide)

/-- C7.  On the first reachable sample after a disconnection
(`was_connected = false`, sample reachable) the loop rebuilds the menu,
restores the normal tray icon, sets `was_connected` back to `true`, emits
no lost-connection notification, and when the same tick appends no song
the recovery emits exactly the menu rebuild and the icon restore — in
particular no notification for the recovery itself. -/
theorem c7_recovery_transition (tmo : Int) (s : LoopState) (t : Tick)
    (h1 : s.wasConnected = false) (h2 : t.conn = true) :
    Event.buildMenu ∈ (step tmo s t).2
    ∧ Event.setIconNormal ∈ (step tmo s t).2
    ∧ (step tmo s t).1.wasConnected = true
    ∧ (step tmo s t).2.filter Event.isLost = []
    ∧ (stepRec s t = none → (step tmo s t).2 = [Event.buildMenu, Event.setIconNormal]) := by
  cases hp : t.playing with
  | none => simp [step, stepRec, h1, h2, hp, Event.isLost]
  | some p =>
    by_cases hcond : p.title ≠ "" ∧ p.title ≠ s.prevTitle
    · simp [step, stepRec, h1, h2, hp, hcond, Event.isLost]
    · simp [step, stepRec, h1, h2, hp, hcond, Event.isLost]

theorem c7_witness :
    Event.buildMenu ∈ (step 10 { prevTitle := "", wasConnected := false, history := [] }
        { conn := true, station := "kink", playing := none }).2
    ∧ Event.setIconNormal ∈ (step 10 { prevTitle := "", wasConnected := false, history := [] }
        { conn := true, station := "kink", playing := none }).2
    ∧ (step 10 { prevTitle := "", wasConnected := false, history := [] }
        { conn := true, station := "kink", playing := none }).1.wasConnected = true
    ∧ (step 10 { prevTitle := "", wasConnected := false, history := [] }
        { conn := true, station := "kink", playing := none }).2.filter Event.isLost = []
    ∧ (stepRec { prevTitle := "", wasConnected := false, history := [] }
        { conn := true, station := "kink", playing := none } = none →
        (step 10 { prevTitle := "", wasConnected := false, history := [] }
            { conn := true, station := "kink", playing := none }).2
          = [Event.buildMenu, Event.setIconNormal]) :=
  c7_recovery_transition 10 { prevTitle := "", wasConnected := false, history := [] }
    { conn := true, station := "kink", playing := none } rfl rfl

theorem step_filter_song_of_none (tmo : Int) (s : LoopState) (t : Tick)
    (h : stepRec s t = none) :
    (step tmo s t).2.filter Event.isSong = [] := by
  cases hc : t.conn with
  | false => cases hw : s.wasConnected <;> simp [step, hc, hw, Event.isSong]
  | true =>
    cases hp : t.playing with
    | none =>
      cases hw : s.wasConnected <;> simp [step, hc, hw, hp, Event.isSong]
    | some p =>
      have hcond : ¬(p.title ≠ "" ∧ p.title ≠ s.prevTitle) := by
        simp only [stepRec, hc, if_true, hp] at h
        intro hcon
        rw [if_pos hcon] at h
        exact Option.noConfusion h
      cases hw : s.wasConnected <;>
        simp [step, hc, hw, hp, hcond, Event.isSong]

/-- C10.  The loop's `prev_title` is a single process-wide value that no
station switch resets: whenever the fetched title equals `prev_title`, no
history record is appended, no song notification is emitted and
`prev_title` is unchanged — with no hypothesis at all on the tick's
station.  Concretely, after "T" is logged for station `kink`, fetching
"T" on station `kink-dna` appends nothing. -/
theorem c10_prev_title_is_global (tmo : Int) (s : LoopState) (t : Tick)
    (p : Playing) (h1 : t.playing = some p) (h2 : p.title = s.prevTitle) :
    (step tmo s t).1.history = s.history
    ∧ (step tmo s t).2.filter Event.isSong = []
    ∧ (step tmo s t).1.prevTitle = s.prevTitle
    ∧ (runCheck 10 [sampleTick, sampleTickDna]).1.history = [sampleRec] := by
  have hr : stepRec s t = none := by
    cases hc : t.conn <;> simp [stepRec, hc, h1, h2]
  have hh := step_history tmo s t
  have hp := step_prevTitle tmo s t
  simp [hr] at hh hp
  exact ⟨hh, step_filter_song_of_none tmo s t hr, hp, rfl⟩

theorem c10_witness :
    (step 10 { prevTitle := "T", wasConnected := true, history := [sampleRec] } sampleTickDna).1.history
      = ({ prevTitle := "T", wasConnected := true, history := [sampleRec] } : LoopState).history
    ∧ (step 10 { prevTitle := "T", wasConnected := true, history := [sampleRec] } sampleTickDna).2.filter
        Event.isSong = []
    ∧ (step 10 { prevTitle := "T", wasConnected := true, history := [sampleRec] } sampleTickDna).1.prevTitle
      = ({ prevTitle := "T", wasConnected := true, history := [sampleRec] } : LoopState).prevTitle
    ∧ (runCheck 10 [sampleTick, sampleTickDna]).1.history = [sampleRec] :=
  c10_prev_title_is_global 10
    { prevTitle := "T", wasConnected := true, history := [sampleRec] }
    sampleTickDna sampleP rfl rfl

-- ===== network-facing operations (lines 252-316) =====

/-- JSON value as produced by `json.loads` (object keys are unique). -/
inductive JVal where
  | null
  | bool (b : Bool)
  | num (n : Int)
  | str (s : String)
  | arr (elems : List JVal)
  | obj (entries : List (String × JVal))

/-- Python exception escaping one of the network-facing operations. -/
inductive PyExn where
  /-- a `requests.exceptions.*` transport failure raised by `requests.get`
  (timeout, DNS error, connection refused) -/
  | transport (e : String)
  /-- `json.JSONDecodeError` raised by `json.loads` -/
  | jsonDecode
  /-- `KeyError`/`TypeError` raised by `obj['stations']` (line 263) -/
  | lookup
  /-- `AttributeError` raised by `s_dict.keys()` on a non-dict (line 266) -/
  | attr
deriving Repr, DecidableEq

/-- Outcome of one `requests.get` call: either a raised transport
exception, or a response with its status code and the outcome `json.loads`
would produce on its text. -/
inductive FetchResult where
  | exn (e : String)
  | resp (status : Nat) (body : Except Unit JVal)

/-- `KinkPlaying._json_request` (lines 252-257).  `requests.get` is called
with no `try`/`except`, so a transport failure propagates; on status 200
the body is parsed (`json.loads` failures also propagate); any other
status returns `None`. -/
def json_request : FetchResult → Except PyExn (Option JVal)
  | .exn e => .error (.transport e)
  | .resp status body =>
    if status = 200 then
      match body with
      | .error _ => .error .jsonDecode
      | .ok v => .ok (some v)
    else .ok none

/-- Python truthiness of a JSON value. -/
def jTruthy : JVal → Bool
  | .null => false
  | .bool b => b
  | .num n => n != 0
  | .str s => s != ""
  | .arr elems => !elems.isEmpty
  | .obj entries => !entries.isEmpty

/-- Python subscript `v[key]` with a string key: a value for dicts that
contain the key, `KeyError` for dicts that do not, `TypeError` for every
non-dict. -/
def jGet : JVal → String → Except Unit JVal
  | .obj entries, key =>
    match entries.find? (fun kv => kv.1 == key) with
    | some kv => .ok kv.2
    | none => .error ()
  | _, _ => .error ()

/-- Left-to-right chained subscripts `v[k1][k2]...`. -/
def jPath : JVal → List String → Except Unit JVal
  | v, [] => .ok v
  | v, k :: ks =>
    match jGet v k with
    | .ok w => jPath w ks
    | .error e => .error e

/-- One `try: value = obj[...]... except (KeyError, TypeError): value = ''`
block of `get_playing` (lines 291-306). -/
def fieldDefault (v : JVal) (path : List String) : JVal :=
  match jPath v path with
  | .ok x => x
  | .error _ => .str ""

/-- Dictionary returned by `get_playing` on a truthy parsed document
(line 309); each field is the raw JSON value found, or `''` on a caught
`KeyError`/`TypeError`. -/
structure PlayingJ where
  artist : JVal
  title : JVal
  album_art : JVal
  program : JVal

/-- `KinkPlaying.get_playing` (lines 287-309).  `none` models the falsy
empty dictionary returned when `_json_request` gives `None` (or any falsy
document). -/
def get_playing (station : String) (r : FetchResult) : Except PyExn (Option PlayingJ) :=
  match json_request r with
  | .error e => .error e
  | .ok none => .ok none
  | .ok (some v) =>
    if jTruthy v then
      .ok (some { artist := fieldDefault v ["extended", station, "artist"],
                  title := fieldDefault v ["extended", station, "title"],
                  album_art := fieldDefault v ["extended", station, "album_art", "320"],
                  program := fieldDefault v ["extended", station, "program", "title"] })
    else .ok none

/-- `KinkPlaying._is_connected` (lines 311-316): `requests.get` with no
`try`/`except`, then `True` exactly on status 200. -/
def is_connected : FetchResult → Except PyExn Bool
  | .exn e => .error (.transport e)
  | .resp status _ => if status = 200 then .ok true else .ok false

/-- `KinkPlaying.get_stations` (lines 259-268): `[]` when `_json_request`
gives a falsy document, otherwise the keys of `obj['stations']` sorted
ascending; the subscript and the `.keys()` call are not guarded, so their
failures propagate. -/
def get_stations (r : FetchResult) : Except PyExn (List String) :=
  match json_request r with
  | .error e => .error e
  | .ok none => .ok []
  | .ok (some v) =>
    if jTruthy v then
      match jGet v "stations" with
      | .error _ => .error .lookup
      | .ok sdict =>
        match sdict with
        | .obj entries => .ok (List.insertionSort (· ≤ ·) (entries.map Prod.fst))
        | _ => .error .attr
    else .ok []

/-- C3 counterexample.  On a transport failure (`requests.get` raising,
e.g. a connection error) `get_playing` does not return the Unavailable
empty dictionary: the exception propagates to the caller, because
`_json_request` wraps nothing in `try`/`except`. -/
theorem c3_counterexample :
    get_playing "kink" (.exn "ConnectionError")
        = .error (.transport "ConnectionError")
    ∧ get_playing "kink" (.exn "ConnectionError") ≠ .ok none :=
  ⟨rfl, fun h => Except.noConfusion h⟩

/-- C3 (amended).  The status fetch returns the Unavailable empty
dictionary on any non-success HTTP status, and a `PlaybackStatus` on a
successful parse of a truthy document; but transport failures (timeout,
DNS error, connection refused) and JSON decode errors raise to the
caller instead of yielding Unavailable. -/
theorem c3_amended_get_playing (st e : String) (code : Nat)
    (body : Except Unit JVal) (v : JVal)
    (hcode : code ≠ 200) (hv : jTruthy v = true) :
    get_playing st (.exn e) = .error (.transport e)
    ∧ get_playing st (.resp code body) = .ok none
    ∧ get_playing st (.resp 200 (.error ())) = .error .jsonDecode
    ∧ ∃ p, get_playing st (.resp 200 (.ok v)) = .ok (some p) := by
  refine ⟨rfl, ?_, rfl, ?_⟩
  · simp [get_playing, json_request, hcode]
  · exact ⟨{ artist := fieldDefault v ["extended", st, "artist"],
             title := fieldDefault v ["extended", st, "title"],
             album_art := fieldDefault v ["extended", st, "album_art", "320"],
             program := fieldDefault v ["extended", st, "program", "title"] },
      by simp [get_playing, json_request, hv]⟩

/-- Sample truthy JSON document without the expected keys. -/
def sampleDoc : JVal := .obj [("x", .num 1)]

theorem c3_witness :
    get_playing "kink" (.exn "Timeout") = .error (.transport "Timeout")
    ∧ get_playing "kink" (.resp 404 (.ok .null)) = .ok none
    ∧ get_playing "kink" (.resp 200 (.error ())) = .error .jsonDecode
    ∧ ∃ p, get_playing "kink" (.resp 200 (.ok sampleDoc)) = .ok (some p) :=
  c3_amended_get_playing "kink" "Timeout" 404 (.ok .null) sampleDoc
    (by decide) rfl

/-- C4 counterexample.  A transport exception raised by `requests.get`
inside `_is_connected` is not turned into `False`: it propagates
(there is no `try`/`except` on lines 311-316), so "any exception yields
false, never propagates" fails. -/
theorem c4_counterexample :
    is_connected (.exn "ConnectionError") = .error (.transport "ConnectionError")
    ∧ is_connected (.exn "ConnectionError") ≠ .ok false :=
  ⟨rfl, fun h => Except.noConfusion h⟩

/-- C4 (amended).  On an HTTP response `_is_connected` returns `True`
exactly when the status is 200 and `False` on every other status; a
transport exception raised during the fetch propagates to the caller
instead of yielding `False`. -/
theorem c4_amended_is_connected (e : String) (code : Nat)
    (body : Except Unit JVal) :
    (is_connected (.resp code body) = .ok true ↔ code = 200)
    ∧ (is_connected (.resp code body) = .ok false ↔ code ≠ 200)
    ∧ is_connected (.exn e) = .error (.transport e) := by
  refine ⟨?_, ?_, rfl⟩ <;> by_cases h : code = 200 <;> simp [is_connected, h]

/-- C8 counterexample.  When the fetch succeeds but the parsed document
has no `stations` key, `get_stations` does not return the empty
sequence: the `KeyError` of `obj['stations']` (line 263) propagates. -/
theorem c8_counterexample :
    get_stations (.resp 200 (.ok sampleDoc)) = .error .lookup
    ∧ get_stations (.resp 200 (.ok sampleDoc)) ≠ .ok [] :=
  ⟨rfl, fun h => Except.noConfusion h⟩

/-- Sample `stations` mapping with keys out of order. -/
def sampleSDict : List (String × JVal) :=
  [("kink-dna", JVal.null), ("kink", JVal.null)]

/-- C8 (amended).  `get_stations` returns the keys of the `stations`
mapping sorted lexicographically (ascending, and a permutation of the
keys) when the fetched document is a truthy object carrying one, and `[]`
when the fetch yields a non-success status; but a transport failure, a
JSON decode error, or a document without a `stations` mapping raises to
the caller rather than yielding the empty sequence. -/
theorem c8_amended_get_stations (e : String) (code : Nat)
    (body : Except Unit JVal) (sdict rest : List (String × JVal))
    (hcode : code ≠ 200) :
    get_stations (.exn e) = .error (.transport e)
    ∧ get_stations (.resp code body) = .ok []
    ∧ get_stations (.resp 200 (.ok (.obj (("stations", .obj sdict) :: rest))))
        = .ok (List.insertionSort (· ≤ ·) (sdict.map Prod.fst))
    ∧ List.Sorted (· ≤ ·) (List.insertionSort (· ≤ ·) (sdict.map Prod.fst))
    ∧ (List.insertionSort (· ≤ ·) (sdict.map Prod.fst)).Perm (sdict.map Prod.fst) := by
  refine ⟨rfl, ?_, rfl, List.sorted_insertionSort _ _, List.perm_insertionSort _ _⟩
  simp [get_stations, json_request, hcode]

theorem c8_witness :
    get_stations (.exn "Timeout") = .error (.transport "Timeout")
    ∧ get_stations (.resp 404 (.ok .null)) = .ok []
    ∧ get_stations (.resp 200 (.ok (.obj [("stations", .obj sampleSDict)])))
        = .ok (List.insertionSort (· ≤ ·) (sampleSDict.map Prod.fst))
    ∧ List.Sorted (· ≤ ·) (List.insertionSort (· ≤ ·) (sampleSDict.map Prod.fst))
    ∧ (List.insertionSort (· ≤ ·) (sampleSDict.map Prod.fst)).Perm (sampleSDict.map Prod.fst) :=
  c8_amended_get_stations "Timeout" 404 (.ok .null) sampleSDict [] (by decide)

-- ===== C6: show_song_info album-art handling (lines 221-232) =====

/-- Album-art action taken by `show_song_info`. -/
inductive ArtAction where
  /-- `self._save_thumb(csv_data[0][4])`: fetch the url and cache it -/
  | download (url : String)
  /-- `os.remove(self.tmp_thumb)` (line 232) -/
  | delete
  /-- no file-system action: the cached art is reused unchanged -/
  | keep
deriving Repr, DecidableEq

/-- Lines 221-232 of `show_song_info`, given the selected rows
`csv_data` (the selected record first, then its immediately preceding
record if one was found), whether the cached art file `self.tmp_thumb`
exists, and the lookback `index` argument. -/
def artAction : List HistRec → Bool → Nat → ArtAction
  | [], _, _ => .keep
  | r0 :: rest, cacheExists, index =>
    -- `if csv_data[0][4]:` (line 222)
    if r0.album_art ≠ "" then
      -- `if not exists(self.tmp_thumb) or len(csv_data) == 1:` (line 224)
      if !cacheExists || rest.isEmpty then .download r0.album_art
      else
        match rest with
        | r1 :: _ =>
          -- `if csv_data[0][4] != csv_data[1][4] or index > 1:` (line 227)
          if r0.album_art ≠ r1.album_art ∨ index > 1 then .download r0.album_art
          else .keep
        | [] => .keep
    else
      -- `if exists(self.tmp_thumb): os.remove(self.tmp_thumb)` (lines 230-232)
      if cacheExists then .delete else .keep

/-- C6.  For a selected record with a non-empty art URL, the art is
downloaded iff no cached art exists, or no preceding record was found, or
the two art URLs differ, or the caller requested a lookback index greater
than the default 1; in every other such case the cached art is reused
unchanged; and for a selected record with an empty art URL the cached art
file is deleted exactly when it exists. -/
theorem c6_album_art_policy (r0 : HistRec) (rest : List HistRec)
    (cacheExists : Bool) (index : Nat) :
    (r0.album_art ≠ "" →
      (artAction (r0 :: rest) cacheExists index = .download r0.album_art ↔
        (cacheExists = false ∨ rest = [] ∨
          ∃ r1, rest.head? = some r1 ∧ (r0.album_art ≠ r1.album_art ∨ 1 < index))))
    ∧ (r0.album_art ≠ "" →
        artAction (r0 :: rest) cacheExists index ≠ .download r0.album_art →
        artAction (r0 :: rest) cacheExists index = .keep)
    ∧ (r0.album_art = "" →
        artAction (r0 :: rest) cacheExists index =
          if cacheExists then .delete else .keep) := by
  refine ⟨?_, ?_, ?_⟩
  · intro h
    cases rest with
    | nil => simp [artAction, h]
    | cons r1 tl =>
      cases cacheExists with
      | false => simp [artAction, h]
      | true =>
        by_cases hcond : r0.album_art ≠ r1.album_art ∨ index > 1
        · simp [artAction, h, hcond]
        · simp [artAction, h, hcond]
  · intro h hnd
    cases rest with
    | nil => exact absurd (by simp [artAction, h]) hnd
    | cons r1 tl =>
      cases cacheExists with
      | false => exact absurd (by simp [artAction, h]) hnd
      | true =>
        by_cases hcond : r0.album_art ≠ r1.album_art ∨ index > 1
        · exact absurd (by simp [artAction, h, hcond]) hnd
        · simp [artAction, h, hcond]
  · intro h
    simp [artAction, h]

theorem c6_witness :
    artAction [sampleRec] false 1 = ArtAction.download sampleRec.album_art :=
  ((c6_album_art_policy sampleRec [] false 1).1 (by decide)).mpr (Or.inl rfl)

-- ===== C9: switch_station (lines 270-285) =====

/-- The four stream-playlist URLs of `self.streams` (line 505-508). -/
structure Streams where
  kink : String
  dna : String
  indie : String
  distortion : String
deriving Repr, DecidableEq

/-- The application state `switch_station` touches: `self.station`, the
VLC player state (`self.list_player.is_playing()`), the configured stream
URLs and the loaded media list. -/
structure AppState where
  station : String
  isPlaying : Bool
  streams : Streams
  playlist : List String
deriving Repr, DecidableEq

/-- Externally visible actions of `switch_station` and its callees. -/
inductive SEffect where
  /-- `self.list_player.stop()` -/
  | stopPlayer
  /-- `media_list.add_media(url); self.list_player.set_media_list(..)` -/
  | addPlaylist (url : String)
  /-- `self.list_player.play()` -/
  | play
  /-- `self.indicator.set_menu(self._build_menu())` -/
  | buildMenu
  /-- `print(f"Switch station: ...")` (line 275) -/
  | printSwitch (station : String)
deriving Repr, DecidableEq

/-- Python `needle in s` substring test. -/
def pyIn (needle s : String) : Bool := (s.splitOn needle).length ≠ 1

/-- `KinkPlaying._get_pls` (lines 318-326). -/
def get_pls (st : AppState) : String :=
  if pyIn "dna" st.station then st.streams.dna
  else if pyIn "indie" st.station then st.streams.indie
  else if pyIn "distortion" st.station then st.streams.distortion
  else st.streams.kink

/-- `KinkPlaying.stop_kink` (lines 346-348). -/
def stop_kink (st : AppState) : AppState × List SEffect :=
  ({ st with isPlaying := false }, [.stopPlayer])

/-- `KinkPlaying.play_kink` (lines 336-339). -/
def play_kink (st : AppState) : AppState × List SEffect :=
  ({ st with isPlaying := true }, [.play, .buildMenu])

/-- `KinkPlaying._add_playlist` (lines 328-334). -/
def add_playlist (st : AppState) : AppState × List SEffect :=
  ({ st with playlist := [get_pls st] }, [.addPlaylist (get_pls st)])

/-- `KinkPlaying.switch_station` (lines 270-285): early return when the
requested station is the current one, otherwise set the station,
stop/reload/restart the player as needed and rebuild the menu. -/
def switch_station (st : AppState) (station : String) : AppState × List SEffect :=
  if station = st.station then (st, [])
  else
    let st1 : AppState := { st with station := station }
    let wasPlaying := st1.isPlaying
    let s2 := if wasPlaying then stop_kink st1 else (st1, [])
    let s3 := add_playlist s2.1
    let s4 := if wasPlaying then play_kink s3.1 else (s3.1, [])
    (s4.1, [SEffect.printSwitch station] ++ s2.2 ++ s3.2 ++ s4.2 ++ [SEffect.buildMenu])

theorem switch_station_station (st : AppState) (s : String) :
    (switch_station st s).1.station = s := by
  by_cases h : s = st.station
  · simp [switch_station, h]
  · cases hw : st.isPlaying <;>
      simp [switch_station, h, hw, stop_kink, add_playlist, play_kink]

theorem switch_station_self (st : AppState) (s : String) (h : st.station = s) :
    switch_station st s = (st, []) := by
  rw [switch_station, if_pos h.symm]

/-- C9.  Calling `switch_station` with the currently selected station is
a no-op — the state is returned unchanged and no effect is performed —
and consequently two consecutive calls with the same station have the
effect of one: the second call changes nothing and performs nothing. -/
theorem c9_switch_station_idempotent (st : AppState) (s : String) :
    switch_station st st.station = (st, [])
    ∧ switch_station (switch_station st s).1 s = ((switch_station st s).1, []) :=
  ⟨switch_station_self st st.station rfl,
    switch_station_self (switch_station st s).1 s (switch_station_station st s)⟩
